import Mathlib

/-!
Verification of the media classification and destination-resolution
pipeline of photo-sorter (src/sort.py).  The Python source is embedded
shallowly: each pure fragment of the program becomes a Lean function over
explicit data (filenames as `List Char`, the EXIF dictionary and the
filesystem as association lists, coordinates as rationals), and the
stateful geocoding cache becomes explicit state passing.
-/

namespace PhotoSorter

/-- Calendar date and time, the model of a Python `datetime.datetime`
value (validity is enforced by `mkDatetime`). -/
structure PDate where
  year : Nat
  month : Nat
  day : Nat
  hour : Nat
  minute : Nat
  second : Nat
deriving DecidableEq

/-- Gregorian leap-year test, as used by Python's `datetime` module. -/
def isLeap (y : Nat) : Bool :=
  y % 4 == 0 && (y % 100 != 0 || y % 400 == 0)

/-- Number of days in month `m` of year `y`. -/
def daysInMonth (y m : Nat) : Nat :=
  if m = 2 then (if isLeap y then 29 else 28)
  else if m = 4 ∨ m = 6 ∨ m = 9 ∨ m = 11 then 30
  else 31

/-- Model of the `datetime.datetime` constructor: `none` models the
`ValueError` raised on out-of-range components. -/
def mkDatetime (y mo d h mi s : Nat) : Option PDate :=
  if 1 ≤ y ∧ y ≤ 9999 ∧ 1 ≤ mo ∧ mo ≤ 12 ∧ 1 ≤ d ∧ d ≤ daysInMonth y mo
      ∧ h ≤ 23 ∧ mi ≤ 59 ∧ s ≤ 59 then
    some ⟨y, mo, d, h, mi, s⟩
  else none

/-- Numeric value of a decimal digit character. -/
def digitVal (c : Char) : Nat := c.toNat - 48

/-- Candidates for the strptime `%m` directive (regex `1[0-2]|0[1-9]|[1-9]`
from Python's `_strptime`), in alternation priority order, each paired with
the remaining input. -/
def matchM (cs : List Char) : List (Nat × List Char) :=
  (match cs with
   | '1' :: c :: rest => if '0' ≤ c ∧ c ≤ '2' then [(10 + digitVal c, rest)] else []
   | _ => []) ++
  (match cs with
   | '0' :: c :: rest => if '1' ≤ c ∧ c ≤ '9' then [(digitVal c, rest)] else []
   | _ => []) ++
  (match cs with
   | c :: rest => if '1' ≤ c ∧ c ≤ '9' then [(digitVal c, rest)] else []
   | _ => [])

/-- Candidates for the strptime `%d` directive
(regex `3[01]|[12]\d|0[1-9]|[1-9]`). -/
def matchD (cs : List Char) : List (Nat × List Char) :=
  (match cs with
   | '3' :: c :: rest => if c = '0' ∨ c = '1' then [(30 + digitVal c, rest)] else []
   | _ => []) ++
  (match cs with
   | c :: d :: rest =>
     if (c = '1' ∨ c = '2') ∧ d.isDigit then [(10 * digitVal c + digitVal d, rest)] else []
   | _ => []) ++
  (match cs with
   | '0' :: c :: rest => if '1' ≤ c ∧ c ≤ '9' then [(digitVal c, rest)] else []
   | _ => []) ++
  (match cs with
   | c :: rest => if '1' ≤ c ∧ c ≤ '9' then [(digitVal c, rest)] else []
   | _ => [])

/-- Candidates for the strptime `%H` directive (regex `2[0-3]|[0-1]\d|\d`). -/
def matchH (cs : List Char) : List (Nat × List Char) :=
  (match cs with
   | '2' :: c :: rest => if '0' ≤ c ∧ c ≤ '3' then [(20 + digitVal c, rest)] else []
   | _ => []) ++
  (match cs with
   | c :: d :: rest =>
     if (c = '0' ∨ c = '1') ∧ d.isDigit then [(10 * digitVal c + digitVal d, rest)] else []
   | _ => []) ++
  (match cs with
   | c :: rest => if c.isDigit then [(digitVal c, rest)] else []
   | _ => [])

/-- Candidates for the strptime `%M` directive (regex `[0-5]\d|\d`). -/
def matchMin (cs : List Char) : List (Nat × List Char) :=
  (match cs with
   | c :: d :: rest =>
     if ('0' ≤ c ∧ c ≤ '5') ∧ d.isDigit then [(10 * digitVal c + digitVal d, rest)] else []
   | _ => []) ++
  (match cs with
   | c :: rest => if c.isDigit then [(digitVal c, rest)] else []
   | _ => [])

/-- Candidates for the strptime `%S` directive (regex `6[0-1]|[0-5]\d|\d`);
the tail alternatives coincide with those of `%M`. -/
def matchSec (cs : List Char) : List (Nat × List Char) :=
  (match cs with
   | '6' :: c :: rest => if c = '0' ∨ c = '1' then [(60 + digitVal c, rest)] else []
   | _ => []) ++ matchMin cs

/-- Model of `datetime.datetime.strptime(s, '%Y%m%d')`: exactly four year
digits, then the month/day alternatives with regex backtracking, the whole
input consumed, then the `datetime` constructor check.  `none` models the
`ValueError` Python raises on failure. -/
def strptimeYmd (cs : List Char) : Option PDate :=
  match cs with
  | y1 :: y2 :: y3 :: y4 :: rest =>
    if y1.isDigit ∧ y2.isDigit ∧ y3.isDigit ∧ y4.isDigit then
      let y := 1000 * digitVal y1 + 100 * digitVal y2 + 10 * digitVal y3 + digitVal y4
      match (matchM rest).findSome? (fun mc =>
          (matchD mc.2).findSome? (fun dc =>
            if dc.2 = [] then some (mc.1, dc.1) else none)) with
      | some (mo, d) => mkDatetime y mo d 0 0 0
      | none => none
    else none
  | _ => none

/-- Model of `datetime.datetime.strptime(s, '%y%m%d')`: two year digits
(00-68 mapping to 2000-2068, 69-99 to 1969-1999, as in `_strptime`), then
month and day as in `strptimeYmd`. -/
def strptimeYymmdd (cs : List Char) : Option PDate :=
  match cs with
  | y1 :: y2 :: rest =>
    if y1.isDigit ∧ y2.isDigit then
      let yy := 10 * digitVal y1 + digitVal y2
      let y := if yy ≤ 68 then 2000 + yy else 1900 + yy
      match (matchM rest).findSome? (fun mc =>
          (matchD mc.2).findSome? (fun dc =>
            if dc.2 = [] then some (mc.1, dc.1) else none)) with
      | some (mo, d) => mkDatetime y mo d 0 0 0
      | none => none
    else none
  | _ => none

/-- Model of `datetime.datetime.strptime(s, '%Y:%m:%d %H:%M:%S')`, the
format used for the EXIF `DateTimeOriginal` tag in
`MediaFile.__exif_date`. -/
def strptimeExif (cs : List Char) : Option PDate :=
  match cs with
  | y1 :: y2 :: y3 :: y4 :: ':' :: r1 =>
    if y1.isDigit ∧ y2.isDigit ∧ y3.isDigit ∧ y4.isDigit then
      let y := 1000 * digitVal y1 + 100 * digitVal y2 + 10 * digitVal y3 + digitVal y4
      match (matchM r1).findSome? (fun mc =>
          match mc.2 with
          | ':' :: r2 =>
            (matchD r2).findSome? (fun dc =>
              match dc.2 with
              | ' ' :: r3 =>
                (matchH r3).findSome? (fun hc =>
                  match hc.2 with
                  | ':' :: r4 =>
                    (matchMin r4).findSome? (fun nc =>
                      match nc.2 with
                      | ':' :: r5 =>
                        (matchSec r5).findSome? (fun sc =>
                          if sc.2 = [] then some (mc.1, dc.1, hc.1, nc.1, sc.1) else none)
                      | _ => none)
                  | _ => none)
              | _ => none)
          | _ => none) with
      | some (mo, d, h, mi, s) => mkDatetime y mo d h mi s
      | none => none
    else none
  | _ => none

/-- Year-range validation in `MediaFile.__guess_date_by_filename`: a parsed
date is kept only when `1990 <= year <= currentYear`; the current year is
the parameter `cy` (`datetime.date.today().year`). -/
def validYear (cy : Nat) (od : Option PDate) : Option PDate :=
  od.bind (fun d => if 1990 ≤ d.year ∧ d.year ≤ cy then some d else none)

/-- Model of `MediaFile.__guess_date_by_filename` (src/sort.py lines
315-342): an if/elif chain over the filename stem.  Inside a taken branch a
`ValueError` from `strptime` or an out-of-range year falls to the final
`return None`; the later branches of the chain are not revisited. -/
def guessDateByFilename (cy : Nat) (stem : List Char) : Option PDate :=
  if "IMG_".toList.isPrefixOf stem || "MOV_".toList.isPrefixOf stem then
    validYear cy (strptimeYmd ((stem.splitOn '_').getD 1 []))
  else if "FILE".toList.isPrefixOf stem then
    validYear cy (strptimeYymmdd ((stem.drop 4).take 6))
  else if stem.length > 8 then
    validYear cy (strptimeYmd (stem.take 8))
  else
    none

/-- Rule (a) of the spec's filename heuristics: a stem beginning with
`IMG_` or `MOV_` contributes the second underscore-delimited segment
parsed as `YYYYMMDD`, validated; otherwise no match. -/
def ruleImgMov (cy : Nat) (stem : List Char) : Option PDate :=
  if "IMG_".toList.isPrefixOf stem || "MOV_".toList.isPrefixOf stem then
    validYear cy (strptimeYmd ((stem.splitOn '_').getD 1 []))
  else none

/-- Rule (b) of the spec's filename heuristics: a stem beginning with
`FILE` contributes characters 4..10 parsed as `YYMMDD`, validated. -/
def ruleFile (cy : Nat) (stem : List Char) : Option PDate :=
  if "FILE".toList.isPrefixOf stem then
    validYear cy (strptimeYymmdd ((stem.drop 4).take 6))
  else none

/-- Rule (c) of the spec's filename heuristics: a stem longer than 8
characters contributes its first 8 characters parsed as `YYYYMMDD`,
validated. -/
def ruleLeading8 (cy : Nat) (stem : List Char) : Option PDate :=
  if stem.length > 8 then validYear cy (strptimeYmd (stem.take 8)) else none

/-- Modelled from the spec's words (section 4.2): the filename heuristics
read as an ordered fall-through chain in which a rule whose parse fails or
whose year is out of range is "no match" and the next rule is tried.  Used
to compare the source's if/elif chain against the spec's reading. -/
def guessDateChain (cy : Nat) (stem : List Char) : Option PDate :=
  (ruleImgMov cy stem).orElse (fun _ =>
    (ruleFile cy stem).orElse (fun _ => ruleLeading8 cy stem))

/-- Exception kinds that can escape the embedded fragments, naming the
Python exception classes involved. -/
inductive PyExc where
  | keyError
  | valueError
  | typeError
  | geocoderUnavailable
deriving DecidableEq

/-- A Python value as seen by `float(...)`: either convertible to a number
or not (`nonNum` models values on which `float` raises). -/
inductive PyNum where
  | num (q : ℚ)
  | nonNum
deriving DecidableEq

/-- A value stored in the EXIF `GPSInfo` mapping: a sequence (tuple/list)
of values, or something that cannot be unpacked as a sequence. -/
inductive GpsVal where
  | seq (l : List PyNum)
  | nonSeq
deriving DecidableEq

/-- A value of the decoded EXIF tag dictionary: a string (as for
`DateTimeOriginal`), the `GPSInfo` mapping from integer indices, or some
other value. -/
inductive ExifVal where
  | str (s : String)
  | gps (g : List (Nat × GpsVal))
  | other
deriving DecidableEq

/-- Association-list lookup, the model of Python dict indexing and of the
`in` membership test. -/
def alookup {α β : Type} [DecidableEq α] : List (α × β) → α → Option β
  | [], _ => none
  | (k, v) :: t, k2 => if k = k2 then some v else alookup t k2

/-- Model of `MediaFile.__exif_date` (src/sort.py lines 229-244): the
filename guess is consulted first; only when it yields nothing is the EXIF
`DateTimeOriginal` tag parsed with `%Y:%m:%d %H:%M:%S` (a `ValueError`
there is caught, logged and yields no date; `strptime` applied to a
non-string value would raise an uncaught `TypeError`). -/
def exifDate (cy : Nat) (stem : List Char) (exif : List (String × ExifVal)) :
    Except PyExc (Option PDate) :=
  match guessDateByFilename cy stem with
  | some d => .ok (some d)
  | none =>
    match alookup exif "DateTimeOriginal" with
    | none => .ok none
    | some (.str s) => .ok (strptimeExif s.toList)
    | some _ => .error .typeError

/-- Test for the two sign characters of an ISO-6709 string. -/
def isSign (c : Char) : Bool := c == '+' || c == '-'

/-- Strip of a single trailing slash, the model of the
`part.endswith('/')` branch of `MediaFile.__iso6709`. -/
def stripSlash (p : List Char) : List Char :=
  if p.getLast? = some '/' then p.dropLast else p

/-- Accumulator loop of `MediaFile.__iso6709` (src/sort.py lines 186-201):
`part` is the field being accumulated, `ret` the fields already emitted; a
sign character with a nonempty `part` emits it and starts the next field;
at the end the final nonempty field has one trailing slash stripped. -/
def iso6709Go : List Char → List Char → List (List Char) → List (List Char)
  | [], part, ret => if part = [] then ret else ret ++ [stripSlash part]
  | c :: cs, part, ret =>
    if isSign c && !(part = []) then iso6709Go cs [c] (ret ++ [part])
    else iso6709Go cs (part ++ [c]) ret

/-- Model of `MediaFile.__iso6709`: split an ISO-6709 geolocation string
into its signed fields. -/
def iso6709 (val : List Char) : List (List Char) :=
  iso6709Go val [] []

/-- Modelled from the spec's words (section 4.3): the split starts a new
field at every sign character except one that would begin an empty field,
i.e. exactly at the sign occurrences after position 0; each group starts at
such a position and runs to the next. -/
def signGroups : List Char → List (List Char)
  | [] => []
  | c :: cs =>
    (c :: cs.takeWhile (fun x => !isSign x)) :: signGroups (cs.dropWhile (fun x => !isSign x))
  termination_by l => l.length
  decreasing_by
    simp only [List.length_cons]
    exact Nat.lt_succ_of_le (List.dropWhile_sublist (l := cs) (fun x => !isSign x)).length_le

/-- Strip a single trailing slash from the last group only. -/
def stripLastGroup : List (List Char) → List (List Char)
  | [] => []
  | [p] => [stripSlash p]
  | p :: q :: r => p :: stripLastGroup (q :: r)

/-- Modelled from the spec's words: the ISO-6709 split as described in the
spec, to be compared with the source's `iso6709`. -/
def iso6709Spec (val : List Char) : List (List Char) :=
  stripLastGroup (signGroups val)

/-- The address structure returned by the reverse geocoder, restricted to
the component keys that `MediaFile.__address2location` inspects; a `none`
field models the key being absent from the Python dict. -/
structure Address where
  suburb : Option String
  village : Option String
  town : Option String
  state : Option String
deriving DecidableEq

/-- Model of `MediaFile.__address2location` (src/sort.py lines 246-264):
reduce an address structure to a single place-name string; `none` for the
outer option models a falsy (absent) address. -/
def address2location : Option Address → Option String
  | none => none
  | some a =>
    match a.suburb with
    | some sub =>
      match a.village with
      | some v => some (v ++ "_" ++ sub)
      | none =>
        match a.town with
        | some t => some (t ++ "_" ++ sub)
        | none => some sub
    | none =>
      match a.village with
      | some v => some v
      | none =>
        match a.town with
        | some t => some t
        | none =>
          match a.state with
          | some st => some st
          | none => none

/-- Modelled from the spec's words (section 4.3): first-match-wins
precedence suburb+village > suburb+town > suburb > village > town > state
> none, to be compared with the source's `address2location`. -/
def addressPrecedenceSpec : Option Address → Option String
  | none => none
  | some a =>
    if a.suburb.isSome ∧ a.village.isSome then
      some (a.village.getD "" ++ "_" ++ a.suburb.getD "")
    else if a.suburb.isSome ∧ a.town.isSome then
      some (a.town.getD "" ++ "_" ++ a.suburb.getD "")
    else if a.suburb.isSome then a.suburb
    else if a.village.isSome then a.village
    else if a.town.isSome then a.town
    else if a.state.isSome then a.state
    else none

/-- Outcome of one call to the geopy reverse geocoder:
a successful address, a `ValueError` on malformed coordinates, or a
`geopy.exc.GeocoderUnavailable` error. -/
inductive ReverseResult where
  | ok (a : Address)
  | invalid
  | unavailable
deriving DecidableEq

/-- Coordinate rounded to three decimal places, the model of Python
`round(x, 3)` used to build the cache key in `GeoLocator.address`.
Coordinates are embedded as rationals; `round` is round-half-up where
Python rounds the nearest binary float half-to-even, a difference confined
to exact ties that no claim exercises. -/
def round3 (q : ℚ) : ℚ := (round (q * 1000) : ℚ) / 1000

/-- Cache key of `GeoLocator.address`: both coordinates rounded to three
decimals.  (Python renders the pair as the string `"lat,lon"`; the
rendering is injective on the rounded pair, so the pair itself is kept.) -/
def cacheKey (lat lon : ℚ) : ℚ × ℚ := (round3 lat, round3 lon)

/-- State of a `GeoLocator`: the in-memory coordinates cache, the cache as
last written to the pickle file by `persist`, and a count of calls made to
the geopy `reverse` endpoint (network accesses). -/
structure GeoState where
  cache : List ((ℚ × ℚ) × Address)
  persisted : List ((ℚ × ℚ) × Address)
  lookups : Nat
deriving DecidableEq

/-- Model of `GeoLocator.address` (src/sort.py lines 70-87), parameterised
by the geopy reverse geocoder `reverse`.  A cache hit returns at once; on a
miss the geocoder is consulted: a success is stored under the rounded key
and persisted, a `ValueError` is caught and yields no address, and
`GeocoderUnavailable` escapes as the fatal `.error`. -/
def glAddress (reverse : ℚ → ℚ → ReverseResult) (s : GeoState) (lat lon : ℚ) :
    Except Unit (Option Address) × GeoState :=
  let key := cacheKey lat lon
  match alookup s.cache key with
  | some a => (.ok (some a), s)
  | none =>
    match reverse lat lon with
    | .ok a =>
      let cache2 := (key, a) :: s.cache
      (.ok (some a), { cache := cache2, persisted := cache2, lookups := s.lookups + 1 })
    | .invalid => (.ok none, { s with lookups := s.lookups + 1 })
    | .unavailable => (.error (), { s with lookups := s.lookups + 1 })

/-- Model of Python tuple unpacking `degrees, minutes, seconds = v`: a
sequence of exactly three values unpacks; any other arity raises
`ValueError` and a non-sequence raises `TypeError`, neither of which is
caught by `__exif_location`. -/
def unpack3 : GpsVal → Except PyExc (PyNum × PyNum × PyNum)
  | .seq [a, b, c] => .ok (a, b, c)
  | .seq _ => .error .valueError
  | .nonSeq => .error .typeError

/-- Model of Python `float(v)`: `ValueError` on a non-numeric value. -/
def pyFloat : PyNum → Except PyExc ℚ
  | .num q => .ok q
  | .nonNum => .error .valueError

/-- Degrees/minutes/seconds to a decimal coordinate, as computed in
`MediaFile.__exif_location`. -/
def dmsToCoord (d m s : ℚ) : ℚ := d + m / 60 + s / 3600

/-- Model of `MediaFile.__exif_location` (src/sort.py lines 129-146),
parameterised by the geolocator call `addrFn` (an application of
`glAddress` with its state, or an oracle).  The surrounding `try` catches
only `KeyError` (an absent index 2 or 4); errors raised by unpacking or
`float`, and `GeocoderUnavailable`, escape. -/
def exifLocation (addrFn : ℚ → ℚ → Except Unit (Option Address))
    (exif : List (String × ExifVal)) : Except PyExc (Option String) :=
  match alookup exif "GPSInfo" with
  | none => .ok none
  | some (.gps g) =>
    match alookup g 2 with
    | none => .ok none
    | some v2 =>
      match unpack3 v2 with
      | .error e => .error e
      | .ok (d1, m1, s1) =>
        match pyFloat d1 with
        | .error e => .error e
        | .ok dq =>
          match pyFloat m1 with
          | .error e => .error e
          | .ok mq =>
            match pyFloat s1 with
            | .error e => .error e
            | .ok sq =>
              let latitude := dmsToCoord dq mq sq
              match alookup g 4 with
              | none => .ok none
              | some v4 =>
                match unpack3 v4 with
                | .error e => .error e
                | .ok (d2, m2, s2) =>
                  match pyFloat d2 with
                  | .error e => .error e
                  | .ok dq2 =>
                    match pyFloat m2 with
                    | .error e => .error e
                    | .ok mq2 =>
                      match pyFloat s2 with
                      | .error e => .error e
                      | .ok sq2 =>
                        let longitude := dmsToCoord dq2 mq2 sq2
                        match addrFn latitude longitude with
                        | .error _ => .error .geocoderUnavailable
                        | .ok oa => .ok (address2location oa)
  | some _ => .error .typeError

/-- A file on disk: its modification time and its byte content (the size
is the byte length).  These are the fields `filecmp.cmp` consults through
the `os.stat` signature. -/
structure FileData where
  mtime : Nat
  bytes : List Nat
deriving DecidableEq

/-- The `os.stat` signature `filecmp._sig` compares under `shallow=True`:
file size and modification time (all files modelled are regular files). -/
def statSig (f : FileData) : Nat × Nat := (f.bytes.length, f.mtime)

/-- Model of `filecmp.cmp(f1, f2)` with its default `shallow=True`, as
called in `MediaFile.dest_path`: files with equal stat signature compare
equal without reading them; otherwise equal size and equal bytes are
required. -/
def filecmpCmp (f1 f2 : FileData) : Bool :=
  if statSig f1 = statSig f2 then true
  else if f1.bytes.length ≠ f2.bytes.length then false
  else f1.bytes == f2.bytes

/-- Decimal rendering of a number zero-padded to width 2, as by
`strftime('%m')`. -/
def pad2 (n : Nat) : String :=
  if n < 10 then "0" ++ toString n else toString n

/-- Decimal rendering of a number zero-padded to width 4, as by
`strftime('%Y')`. -/
def pad4 (n : Nat) : String :=
  if n < 10 then "000" ++ toString n
  else if n < 100 then "00" ++ toString n
  else if n < 1000 then "0" ++ toString n
  else toString n

/-- Model of `MediaFile.__dest_directory` (src/sort.py lines 266-278):
`dstBase/YYYY/MM` when a date is resolved, else `dstBase/0000`, with the
location appended when resolved. -/
def destDirectory (dstBase : String) (date : Option PDate) (loc : Option String) : String :=
  let d := match date with
    | some d => dstBase ++ "/" ++ pad4 d.year ++ "/" ++ pad2 d.month
    | none => dstBase ++ "/" ++ "0000"
  match loc with
  | some l => d ++ "/" ++ l
  | none => d

/-- Model of `MediaFile.__dest_name` (src/sort.py lines 280-284): the
original filename for attempt 0, then `stem_N.ext`. -/
def destName (stem ext : String) (duplicate : Nat) : String :=
  if duplicate = 0 then stem ++ ext
  else stem ++ "_" ++ toString duplicate ++ ext

/-- The existing files at the destination: path string to file data. -/
def DestFS : Type := List (String × FileData)

/-- Collision loop of `MediaFile.dest_path` (src/sort.py lines 286-304),
fuel-counted: for the candidate of attempt `dup`, an absent path is the
final destination, an existing path is compared with `filecmp.cmp` — equal
raises `DuplicateException` (the `.error`), different retries with `dup+1`.
`none` is returned only on fuel exhaustion; `fs.length + 1` attempts always
suffice since candidate names are pairwise distinct. -/
def destPathGo (fs : DestFS) (src : FileData) (dir stem ext : String) :
    Nat → Nat → Option (Except Unit String)
  | 0, _ => none
  | fuel + 1, dup =>
    let dst := dir ++ "/" ++ destName stem ext dup
    match alookup fs dst with
    | some existing =>
      if filecmpCmp existing src then some (.error ())
      else destPathGo fs src dir stem ext fuel (dup + 1)
    | none => some (.ok dst)

/-- Model of `MediaFile.dest_path`: run the collision loop from attempt 0
over the destination directory computed from the resolved date and
location. -/
def destPath (fs : DestFS) (src : FileData) (dstBase : String)
    (date : Option PDate) (loc : Option String) (stem ext : String) :
    Option (Except Unit String) :=
  destPathGo fs src (destDirectory dstBase date loc) stem ext (fs.length + 1) 0

/-- Per-file outcome of the processing attempted inside the `try` of the
main loop (src/sort.py lines 413-458): success with the file's byte size,
the `UnknownMedia` rejection, a `DuplicateException`, the fatal
`GeocoderUnavailable`, or any other exception. -/
inductive Outcome where
  | success (size : Nat)
  | unknownMedia
  | duplicate
  | geoUnavailable
  | failure
deriving DecidableEq

/-- The `stats` run state of `main`: processed paths, cumulative bytes and
the duplicate count (the source root is fixed over a run and omitted). -/
structure RunStats where
  paths : List String
  bytes : Nat
  duplicates : Nat
deriving DecidableEq

/-- Model of the scanning loop of `main` (src/sort.py lines 402-458) with
the per-file work abstracted into an `Outcome` per path: already-processed
paths are skipped; recoverable outcomes update the stats and continue;
`GeocoderUnavailable` and unexpected exceptions stop the loop with
`interrupted = true` (the returned stats are then pickled). -/
def runBatch : List (String × Outcome) → RunStats → RunStats × Bool
  | [], s => (s, false)
  | (p, o) :: rest, s =>
    if p ∈ s.paths then runBatch rest s
    else
      match o with
      | .success sz => runBatch rest { s with paths := p :: s.paths, bytes := s.bytes + sz }
      | .unknownMedia => runBatch rest { s with paths := p :: s.paths }
      | .duplicate =>
        runBatch rest { s with paths := p :: s.paths, duplicates := s.duplicates + 1 }
      | .geoUnavailable => (s, true)
      | .failure => (s, true)

/-- Helper: `strptime` with a `%Y...` format fails on input whose first
character is not a digit. -/
theorem strptimeYmd_nondigit_head {c : Char} (h : ¬ c.isDigit = true) :
    ∀ r : List Char, strptimeYmd (c :: r) = none := by
  intro r
  match r with
  | [] => rfl
  | [_] => rfl
  | [_, _] => rfl
  | _ :: _ :: _ :: _ => simp [strptimeYmd, h]

/-- Helper: a list with a four-element prefix has that explicit shape. -/
theorem isPrefixOf_four {a b c d : Char} :
    ∀ {stem : List Char}, [a, b, c, d].isPrefixOf stem = true →
      ∃ t, stem = a :: b :: c :: d :: t := by
  intro stem h
  match stem with
  | [] => simp [List.isPrefixOf] at h
  | [x1] => simp [List.isPrefixOf] at h
  | [x1, x2] => simp [List.isPrefixOf] at h
  | [x1, x2, x3] => simp [List.isPrefixOf] at h
  | x1 :: x2 :: x3 :: x4 :: t =>
    simp only [List.isPrefixOf, Bool.and_eq_true, beq_iff_eq] at h
    exact ⟨t, by rw [h.1, h.2.1, h.2.2.1, h.2.2.2.1]⟩

/-- Helper: on a stem taken by the `IMG_`/`MOV_` branch (non-digit head,
not a `FILE` stem) the if/elif chain agrees with the fall-through chain,
because the later rules could not match such a stem anyway. -/
theorem chain_eq_headA (cy : Nat) (c : Char) (t : List Char)
    (hc : ¬ c.isDigit = true) (hF : "FILE".toList.isPrefixOf (c :: t) = false)
    (hA : ("IMG_".toList.isPrefixOf (c :: t) || "MOV_".toList.isPrefixOf (c :: t)) = true) :
    guessDateByFilename cy (c :: t) = guessDateChain cy (c :: t) := by
  have h8 : strptimeYmd ((c :: t).take 8) = none :=
    strptimeYmd_nondigit_head hc (t.take 7)
  simp only [guessDateByFilename, guessDateChain, ruleImgMov, ruleFile, ruleLeading8, hA,
    hF, h8, if_true, if_false, Bool.false_eq_true]
  cases hv : validYear cy (strptimeYmd (((c :: t).splitOn '_').getD 1 [])) with
  | some d => rfl
  | none => simp [Option.orElse, validYear, ite_self]

/-- Helper: on a stem taken by the `FILE` branch the if/elif chain agrees
with the fall-through chain. -/
theorem chain_eq_headB (cy : Nat) (t : List Char)
    (hA : ("IMG_".toList.isPrefixOf ('F' :: t) || "MOV_".toList.isPrefixOf ('F' :: t)) = false)
    (hB : "FILE".toList.isPrefixOf ('F' :: t) = true) :
    guessDateByFilename cy ('F' :: t) = guessDateChain cy ('F' :: t) := by
  have h8 : strptimeYmd (('F' :: t).take 8) = none :=
    strptimeYmd_nondigit_head (by decide) (t.take 7)
  simp only [guessDateByFilename, guessDateChain, ruleImgMov, ruleFile, ruleLeading8, hA, hB,
    h8, if_true, if_false, Bool.false_eq_true]
  cases hv : validYear cy (strptimeYymmdd ((('F' :: t).drop 4).take 6)) with
  | some d => rfl
  | none => simp [Option.orElse, validYear, ite_self]

/-- Helper: the source's if/elif filename heuristics and the spec's
fall-through chain are extensionally equal on every stem. -/
theorem guess_equiv : ∀ (cy : Nat) (stem : List Char),
    guessDateByFilename cy stem = guessDateChain cy stem := by
  intro cy stem
  cases hA : ("IMG_".toList.isPrefixOf stem || "MOV_".toList.isPrefixOf stem) with
  | true =>
    rcases Bool.or_eq_true _ _ ▸ hA with h1 | h1
    · obtain ⟨t, ht⟩ :=
        isPrefixOf_four (show (['I', 'M', 'G', '_'] : List Char).isPrefixOf stem = true from h1)
      subst ht
      exact chain_eq_headA cy 'I' ('M' :: 'G' :: '_' :: t) (by decide) rfl hA
    · obtain ⟨t, ht⟩ :=
        isPrefixOf_four (show (['M', 'O', 'V', '_'] : List Char).isPrefixOf stem = true from h1)
      subst ht
      exact chain_eq_headA cy 'M' ('O' :: 'V' :: '_' :: t) (by decide) rfl hA
  | false =>
    cases hB : ("FILE".toList.isPrefixOf stem) with
    | true =>
      obtain ⟨t, ht⟩ :=
        isPrefixOf_four (show (['F', 'I', 'L', 'E'] : List Char).isPrefixOf stem = true from hB)
      subst ht
      exact chain_eq_headB cy ('I' :: 'L' :: 'E' :: t) hA hB
    | false =>
      simp only [guessDateByFilename, guessDateChain, ruleImgMov, ruleFile, ruleLeading8,
        hA, hB, Bool.false_eq_true, if_false]
      rfl

/-- C1: for every media file whose filename stem yields a valid date under
the filename heuristics, `__exif_date` resolves to the filename-derived
date whatever the EXIF dictionary holds, so the embedded metadata date is
never consulted; in particular `IMG_20230401_1234` with EXIF
`DateTimeOriginal = 2099:01:01 00:00:00` resolves to 2023-04-01. -/
theorem exif_date_filename_first :
    (∀ (cy : Nat) (stem : List Char) (exif : List (String × ExifVal)) (d : PDate),
        guessDateByFilename cy stem = some d → exifDate cy stem exif = .ok (some d)) ∧
    exifDate 2026 "IMG_20230401_1234".toList
        [("DateTimeOriginal", ExifVal.str "2099:01:01 00:00:00")] =
      .ok (some ⟨2023, 4, 1, 0, 0, 0⟩) := by
  constructor
  · intro cy stem exif d h
    unfold exifDate
    rw [h]
  · rfl

/-- Witness for C1 at the concrete stem `IMG_20230401_1234`. -/
theorem exif_date_filename_first_witness :
    guessDateByFilename 2026 "IMG_20230401_1234".toList = some ⟨2023, 4, 1, 0, 0, 0⟩ ∧
    exifDate 2026 "IMG_20230401_1234".toList
        [("DateTimeOriginal", ExifVal.str "2099:01:01 00:00:00")] =
      .ok (some ⟨2023, 4, 1, 0, 0, 0⟩) :=
  ⟨rfl, exif_date_filename_first.1 2026 "IMG_20230401_1234".toList
      [("DateTimeOriginal", ExifVal.str "2099:01:01 00:00:00")] ⟨2023, 4, 1, 0, 0, 0⟩ rfl⟩

/-- C2: for every filename stem the heuristics behave as the fall-through
chain in which a parse failure or an out-of-range year in one rule is "no
match" and the next rule is tried (the source's if/elif chain is
extensionally equal to that chain, since no stem accepted by an earlier
prefix test can be parsed by a later rule); in particular a stem matching
rule (a) with candidate year 1985 yields no date, for every current
year. -/
theorem guess_date_rule_failure_falls_through :
    (∀ (cy : Nat) (stem : List Char),
        guessDateByFilename cy stem = guessDateChain cy stem) ∧
    (∀ cy : Nat,
        guessDateByFilename cy "IMG_19850401_1234".toList = none ∧
        guessDateChain cy "IMG_19850401_1234".toList = none) := by
  refine ⟨guess_equiv, fun cy => ?_⟩
  have hcode : guessDateByFilename cy "IMG_19850401_1234".toList = none := by
    show validYear cy (strptimeYmd (("IMG_19850401_1234".toList.splitOn '_').getD 1 [])) = none
    have hp : strptimeYmd (("IMG_19850401_1234".toList.splitOn '_').getD 1 []) =
        some ⟨1985, 4, 1, 0, 0, 0⟩ := rfl
    rw [hp]
    show (if 1990 ≤ (1985 : Nat) ∧ 1985 ≤ cy then some (⟨1985, 4, 1, 0, 0, 0⟩ : PDate)
        else none) = none
    rw [if_neg]
    rintro ⟨h, _⟩
    omega
  refine ⟨hcode, ?_⟩
  rw [← guess_equiv]
  exact hcode

/-- C3 (code bug): `dest_path` signals a duplicate for an existing
destination file that differs from the source in content but has the same
size and modification time, because `filecmp.cmp` is called with its
default `shallow=True` and never reads the bytes when the stat signatures
agree — contradicting the claimed byte-identity test (and the
`DuplicateException` docstring). -/
theorem dest_path_shallow_cmp_duplicate :
    destPath [("out/2023/04/photo.jpg", ⟨100, [1]⟩)] ⟨100, [0]⟩ "out"
        (some ⟨2023, 4, 1, 0, 0, 0⟩) none "photo" ".jpg" = some (.error ()) ∧
    (⟨100, [1]⟩ : FileData).bytes ≠ (⟨100, [0]⟩ : FileData).bytes := by
  refine ⟨rfl, by decide⟩

/-- C4 (code bug): with `photo.jpg` and `photo_1.jpg` both present and
differing from the source in size or mtime and in bytes, the collision
loop plans `photo_2.jpg` as claimed; but when `photo.jpg` differs only in
content (same size and mtime) the shallow `filecmp.cmp` reports it equal
and a duplicate is signalled instead of planning `photo_2.jpg`. -/
theorem dest_path_collision_increment :
    destPath [("out/2023/04/photo.jpg", ⟨1, [0, 1]⟩), ("out/2023/04/photo_1.jpg", ⟨2, [2, 3]⟩)]
        ⟨3, [9, 9]⟩ "out" (some ⟨2023, 4, 1, 0, 0, 0⟩) none "photo" ".jpg" =
      some (.ok "out/2023/04/photo_2.jpg") ∧
    destPath [("out/2023/04/photo.jpg", ⟨5, [7, 7]⟩), ("out/2023/04/photo_1.jpg", ⟨2, [2, 3]⟩)]
        ⟨5, [8, 8]⟩ "out" (some ⟨2023, 4, 1, 0, 0, 0⟩) none "photo" ".jpg" =
      some (.error ()) ∧
    (⟨5, [7, 7]⟩ : FileData).bytes ≠ (⟨5, [8, 8]⟩ : FileData).bytes := by
  refine ⟨rfl, rfl, by decide⟩

/-- Helper: the `__iso6709` accumulator loop, started on a nonempty
current field, emits that field extended to the next sign and then the
sign-delimited groups of the remainder, stripping the final slash. -/
theorem iso6709Go_spec :
    ∀ (cs part : List Char) (ret : List (List Char)), part ≠ [] →
      iso6709Go cs part ret =
        ret ++ stripLastGroup ((part ++ cs.takeWhile (fun x => !isSign x)) ::
          signGroups (cs.dropWhile (fun x => !isSign x))) := by
  intro cs
  induction cs with
  | nil =>
    intro part ret h
    simp [iso6709Go, h, signGroups, stripLastGroup]
  | cons c cs ih =>
    intro part ret h
    cases hs : isSign c with
    | true =>
      have hcond : (isSign c && !(decide (part = []))) = true := by
        simp [hs, h]
      simp only [iso6709Go, hcond, if_true]
      rw [ih [c] (ret ++ [part]) (by simp)]
      rw [List.takeWhile_cons, List.dropWhile_cons]
      simp only [hs, Bool.not_true, if_false, Bool.false_eq_true]
      rw [signGroups]
      simp [stripLastGroup, List.append_assoc]
    | false =>
      have hcond : (isSign c && !(decide (part = []))) = false := by
        simp [hs]
      simp only [iso6709Go, hcond, if_false, Bool.false_eq_true]
      rw [ih (part ++ [c]) ret (by simp)]
      rw [List.takeWhile_cons, List.dropWhile_cons]
      simp only [hs, Bool.not_false, if_true]
      simp [List.append_assoc]

/-- Helper: the source's `__iso6709` equals the spec's description of the
split on every input string. -/
theorem iso6709_eq_spec : ∀ val : List Char, iso6709 val = iso6709Spec val := by
  intro val
  match val with
  | [] => simp [iso6709, iso6709Go, iso6709Spec, signGroups, stripLastGroup]
  | c :: cs =>
    show iso6709Go (c :: cs) [] [] = iso6709Spec (c :: cs)
    have hcond : (isSign c && !(decide (([] : List Char) = []))) = false := by simp
    simp only [iso6709Go, hcond, if_false, Bool.false_eq_true, List.nil_append]
    rw [iso6709Go_spec cs [c] [] (by simp)]
    rw [iso6709Spec, signGroups]
    simp

/-- C5: for every input string the splitter starts a new field exactly at
each sign character that would not begin an empty field (a leading sign
does not split) and strips a single trailing slash from the final field
only; in particular `+48.8566+002.3522/` splits into `+48.8566` and
`+002.3522`. -/
theorem iso6709_split_fields :
    (∀ val : List Char, iso6709 val = iso6709Spec val) ∧
    iso6709 "+48.8566+002.3522/".toList = ["+48.8566".toList, "+002.3522".toList] :=
  ⟨iso6709_eq_spec, rfl⟩

/-- C6: for every address structure the reduction to a place name follows
the precedence suburb+village, suburb+town, suburb, village, town, state,
none (first match wins); in particular suburb A, village B, town C reduce
to `B_A`. -/
theorem address2location_precedence :
    (∀ oa : Option Address, address2location oa = addressPrecedenceSpec oa) ∧
    address2location (some ⟨some "A", some "B", some "C", none⟩) = some "B_A" := by
  constructor
  · intro oa
    match oa with
    | none => rfl
    | some ⟨s, v, t, st⟩ => cases s <;> cases v <;> cases t <;> cases st <;> rfl
  · rfl

/-- C7: calling `address` twice with the same coordinates issues exactly
one reverse-geocoding lookup: a first successful call stores the result
under the rounded key and counts one lookup, and the second call returns
the identical structure with the state — in particular the lookup
counter — unchanged. -/
theorem geolocator_cache_single_lookup
    (reverse : ℚ → ℚ → ReverseResult) (s : GeoState) (lat lon : ℚ) (a : Address)
    (hmiss : alookup s.cache (cacheKey lat lon) = none)
    (hrev : reverse lat lon = .ok a) :
    (glAddress reverse s lat lon).1 = .ok (some a) ∧
    (glAddress reverse s lat lon).2.lookups = s.lookups + 1 ∧
    alookup (glAddress reverse s lat lon).2.cache (cacheKey lat lon) = some a ∧
    glAddress reverse (glAddress reverse s lat lon).2 lat lon =
      (.ok (some a), (glAddress reverse s lat lon).2) := by
  have hstep : glAddress reverse s lat lon =
      (.ok (some a),
        { cache := (cacheKey lat lon, a) :: s.cache,
          persisted := (cacheKey lat lon, a) :: s.cache,
          lookups := s.lookups + 1 }) := by
    simp only [glAddress, hmiss, hrev]
  rw [hstep]
  refine ⟨rfl, rfl, ?_, ?_⟩
  · simp [alookup]
  · simp only [glAddress, alookup, if_pos]

/-- Witness for C7 on an empty cache at the claim's coordinates. -/
theorem geolocator_cache_single_lookup_witness :
    alookup (GeoState.mk [] [] 0).cache (cacheKey 48.8566 2.3522) = none ∧
    ((glAddress (fun _ _ => ReverseResult.ok ⟨some "StGermain", none, none, none⟩)
        ⟨[], [], 0⟩ 48.8566 2.3522).1 = .ok (some ⟨some "StGermain", none, none, none⟩) ∧
      (glAddress (fun _ _ => ReverseResult.ok ⟨some "StGermain", none, none, none⟩)
        ⟨[], [], 0⟩ 48.8566 2.3522).2.lookups = (GeoState.mk [] [] 0).lookups + 1 ∧
      alookup (glAddress (fun _ _ => ReverseResult.ok ⟨some "StGermain", none, none, none⟩)
        ⟨[], [], 0⟩ 48.8566 2.3522).2.cache (cacheKey 48.8566 2.3522) =
        some ⟨some "StGermain", none, none, none⟩ ∧
      glAddress (fun _ _ => ReverseResult.ok ⟨some "StGermain", none, none, none⟩)
        (glAddress (fun _ _ => ReverseResult.ok ⟨some "StGermain", none, none, none⟩)
          ⟨[], [], 0⟩ 48.8566 2.3522).2 48.8566 2.3522 =
        (.ok (some ⟨some "StGermain", none, none, none⟩),
          (glAddress (fun _ _ => ReverseResult.ok ⟨some "StGermain", none, none, none⟩)
            ⟨[], [], 0⟩ 48.8566 2.3522).2)) :=
  ⟨rfl, geolocator_cache_single_lookup _ _ _ _ _ rfl rfl⟩

/-- C8 counterexample: a present `GPSInfo` whose index-2 entry is a triple
with a non-numeric component makes `__exif_location` raise (the `float`
call raises `ValueError`, and only `KeyError` is caught), so location
resolution does propagate an exception on this malformed input, contrary
to the claim. -/
theorem exif_location_uncaught_error :
    exifLocation (fun _ _ => .ok none)
        [("GPSInfo", ExifVal.gps [(2, GpsVal.seq [PyNum.nonNum, PyNum.num 0, PyNum.num 0])])] =
      .error PyExc.valueError ∧
    exifLocation (fun _ _ => .ok none)
        [("GPSInfo", ExifVal.gps [(2, GpsVal.seq [PyNum.nonNum, PyNum.num 0, PyNum.num 0])])] ≠
      .ok none := by
  refine ⟨rfl, ?_⟩
  intro hcontra
  exact Except.noConfusion (hcontra.symm.trans rfl)

/-- C8 as amended: a missing `GPSInfo`, a missing index-2 entry, or a
missing index-4 entry yields no location without an exception (these raise
`KeyError`, the one exception the handler catches); but an index-2 entry
that is not a numeric triple makes `__exif_location` raise an uncaught
exception. -/
theorem exif_location_keyerror_nonfatal
    (addrFn : ℚ → ℚ → Except Unit (Option Address)) (exif : List (String × ExifVal)) :
    (alookup exif "GPSInfo" = none → exifLocation addrFn exif = .ok none) ∧
    (∀ g, alookup exif "GPSInfo" = some (.gps g) → alookup g 2 = none →
        exifLocation addrFn exif = .ok none) ∧
    (∀ g d m s, alookup exif "GPSInfo" = some (.gps g) →
        alookup g 2 = some (GpsVal.seq [PyNum.num d, PyNum.num m, PyNum.num s]) →
        alookup g 4 = none → exifLocation addrFn exif = .ok none) ∧
    (∀ g v, alookup exif "GPSInfo" = some (.gps g) → alookup g 2 = some v →
        (¬ ∃ d m s, v = GpsVal.seq [PyNum.num d, PyNum.num m, PyNum.num s]) →
        ∃ e, exifLocation addrFn exif = .error e) := by
  refine ⟨?_, ?_, ?_, ?_⟩
  · intro h
    simp [exifLocation, h]
  · intro g h h2
    simp [exifLocation, h, h2]
  · intro g d m s h h2 h4
    simp [exifLocation, h, h2, h4, unpack3, pyFloat]
  · intro g v h h2 hv
    match v with
    | GpsVal.nonSeq => exact ⟨.typeError, by simp [exifLocation, h, h2, unpack3]⟩
    | GpsVal.seq [] => exact ⟨.valueError, by simp [exifLocation, h, h2, unpack3]⟩
    | GpsVal.seq [a] => exact ⟨.valueError, by simp [exifLocation, h, h2, unpack3]⟩
    | GpsVal.seq [a, b] => exact ⟨.valueError, by simp [exifLocation, h, h2, unpack3]⟩
    | GpsVal.seq (a :: b :: c :: d :: t) =>
      exact ⟨.valueError, by simp [exifLocation, h, h2, unpack3]⟩
    | GpsVal.seq [PyNum.nonNum, b, c] =>
      exact ⟨.valueError, by simp [exifLocation, h, h2, unpack3, pyFloat]⟩
    | GpsVal.seq [PyNum.num qa, PyNum.nonNum, c] =>
      exact ⟨.valueError, by simp [exifLocation, h, h2, unpack3, pyFloat]⟩
    | GpsVal.seq [PyNum.num qa, PyNum.num qb, PyNum.nonNum] =>
      exact ⟨.valueError, by simp [exifLocation, h, h2, unpack3, pyFloat]⟩
    | GpsVal.seq [PyNum.num qa, PyNum.num qb, PyNum.num qc] =>
      exact absurd ⟨qa, qb, qc, rfl⟩ hv

/-- Witness for the amended C8 on concrete EXIF dictionaries covering all
four cases. -/
theorem exif_location_keyerror_nonfatal_witness :
    exifLocation (fun _ _ => .ok none) [] = .ok none ∧
    exifLocation (fun _ _ => .ok none) [("GPSInfo", ExifVal.gps [])] = .ok none ∧
    exifLocation (fun _ _ => .ok none)
      [("GPSInfo", ExifVal.gps
        [(2, GpsVal.seq [PyNum.num 48, PyNum.num 51, PyNum.num 24])])] = .ok none ∧
    (∃ e, exifLocation (fun _ _ => .ok none)
      [("GPSInfo", ExifVal.gps [(2, GpsVal.nonSeq)])] = .error e) :=
  ⟨(exif_location_keyerror_nonfatal _ _).1 rfl,
    (exif_location_keyerror_nonfatal _ _).2.1 [] rfl rfl,
    (exif_location_keyerror_nonfatal _ _).2.2.1 _ 48 51 24 rfl rfl rfl,
    (exif_location_keyerror_nonfatal _ _).2.2.2 _ GpsVal.nonSeq rfl rfl
      (by rintro ⟨d, m, s, hcontra⟩; exact GpsVal.noConfusion hcontra)⟩

/-- C10: when the reverse lookup fails on invalid coordinates, `address`
returns no address while the cache and its persisted form stay exactly as
they were, and a later call with the same coordinates consults the
geocoder afresh (the lookup counter advances again) instead of returning a
cached failure. -/
theorem geolocator_invalid_leaves_cache
    (reverse : ℚ → ℚ → ReverseResult) (s : GeoState) (lat lon : ℚ)
    (hmiss : alookup s.cache (cacheKey lat lon) = none)
    (hrev : reverse lat lon = .invalid) :
    glAddress reverse s lat lon = (.ok none, { s with lookups := s.lookups + 1 }) ∧
    (glAddress reverse s lat lon).2.cache = s.cache ∧
    (glAddress reverse s lat lon).2.persisted = s.persisted ∧
    glAddress reverse (glAddress reverse s lat lon).2 lat lon =
      (.ok none, { s with lookups := s.lookups + 2 }) := by
  have hstep : glAddress reverse s lat lon = (.ok none, { s with lookups := s.lookups + 1 }) := by
    simp only [glAddress, hmiss, hrev]
  rw [hstep]
  refine ⟨rfl, rfl, rfl, ?_⟩
  simp only [glAddress, hmiss, hrev]

/-- Witness for C10 on an empty cache and out-of-range coordinates. -/
theorem geolocator_invalid_leaves_cache_witness :
    alookup (GeoState.mk [] [] 0).cache (cacheKey 200 300) = none ∧
    (glAddress (fun _ _ => ReverseResult.invalid) ⟨[], [], 0⟩ 200 300 =
        (.ok none, { GeoState.mk [] [] 0 with lookups := 1 }) ∧
      (glAddress (fun _ _ => ReverseResult.invalid) ⟨[], [], 0⟩ 200 300).2.cache =
        (GeoState.mk [] [] 0).cache ∧
      (glAddress (fun _ _ => ReverseResult.invalid) ⟨[], [], 0⟩ 200 300).2.persisted =
        (GeoState.mk [] [] 0).persisted ∧
      glAddress (fun _ _ => ReverseResult.invalid)
        (glAddress (fun _ _ => ReverseResult.invalid) ⟨[], [], 0⟩ 200 300).2 200 300 =
        (.ok none, { GeoState.mk [] [] 0 with lookups := 2 })) :=
  ⟨rfl, geolocator_invalid_leaves_cache _ _ _ _ rfl rfl⟩

/-- Helper: the scanning loop distributes over an append as long as the
leading files have recoverable outcomes. -/
theorem runBatch_append (rest : List (String × Outcome)) :
    ∀ (pre : List (String × Outcome)) (s0 : RunStats),
      (∀ po ∈ pre, po.2 ≠ Outcome.geoUnavailable ∧ po.2 ≠ Outcome.failure) →
      runBatch (pre ++ rest) s0 = runBatch rest (runBatch pre s0).1 := by
  intro pre
  induction pre with
  | nil => intro s0 h; rfl
  | cons po pre ih =>
    intro s0 h
    obtain ⟨p, o⟩ := po
    have hhead := h (p, o) (List.mem_cons_self _ _)
    have htail : ∀ po ∈ pre, po.2 ≠ Outcome.geoUnavailable ∧ po.2 ≠ Outcome.failure :=
      fun po hm => h po (List.mem_cons_of_mem _ hm)
    simp only [List.cons_append, runBatch]
    by_cases hp : p ∈ s0.paths
    · simp only [hp, if_true]
      exact ih s0 htail
    · simp only [hp, if_false]
      cases o with
      | success sz => exact ih _ htail
      | unknownMedia => exact ih _ htail
      | duplicate => exact ih _ htail
      | geoUnavailable => exact absurd rfl hhead.1
      | failure => exact absurd rfl hhead.2

/-- C9: when a geocoder-unavailable failure hits a file mid-batch, the
loop stops interrupted and the persisted run state is exactly the state
after the files processed before the failure: the failing file's path is
not added and its bytes are not counted. -/
theorem geocoder_abort_persists_processed
    (pre post : List (String × Outcome)) (fp : String) (s0 : RunStats)
    (h : ∀ po ∈ pre, po.2 ≠ Outcome.geoUnavailable ∧ po.2 ≠ Outcome.failure)
    (hfp : fp ∉ (runBatch pre s0).1.paths) :
    runBatch (pre ++ (fp, Outcome.geoUnavailable) :: post) s0 = ((runBatch pre s0).1, true) ∧
    fp ∉ (runBatch (pre ++ (fp, Outcome.geoUnavailable) :: post) s0).1.paths ∧
    (runBatch (pre ++ (fp, Outcome.geoUnavailable) :: post) s0).1.bytes =
      (runBatch pre s0).1.bytes := by
  have h1 := runBatch_append ((fp, Outcome.geoUnavailable) :: post) pre s0 h
  have h2 : runBatch ((fp, Outcome.geoUnavailable) :: post) (runBatch pre s0).1 =
      ((runBatch pre s0).1, true) := by
    simp only [runBatch, hfp, if_false]
  rw [h1, h2]
  exact ⟨rfl, hfp, rfl⟩

/-- Witness for C9 on a three-file batch whose middle file hits the
geocoder failure. -/
theorem geocoder_abort_persists_processed_witness :
    (∀ po ∈ [("a.jpg", Outcome.success 10)],
        po.2 ≠ Outcome.geoUnavailable ∧ po.2 ≠ Outcome.failure) ∧
    "b.jpg" ∉ (runBatch [("a.jpg", Outcome.success 10)] ⟨[], 0, 0⟩).1.paths ∧
    (runBatch ([("a.jpg", Outcome.success 10)] ++
        ("b.jpg", Outcome.geoUnavailable) :: [("c.jpg", Outcome.success 5)]) ⟨[], 0, 0⟩ =
      ((runBatch [("a.jpg", Outcome.success 10)] ⟨[], 0, 0⟩).1, true) ∧
      "b.jpg" ∉ (runBatch ([("a.jpg", Outcome.success 10)] ++
        ("b.jpg", Outcome.geoUnavailable) :: [("c.jpg", Outcome.success 5)]) ⟨[], 0, 0⟩).1.paths ∧
      (runBatch ([("a.jpg", Outcome.success 10)] ++
        ("b.jpg", Outcome.geoUnavailable) :: [("c.jpg", Outcome.success 5)]) ⟨[], 0, 0⟩).1.bytes =
        (runBatch [("a.jpg", Outcome.success 10)] ⟨[], 0, 0⟩).1.bytes) :=
  ⟨by decide, by decide,
    geocoder_abort_persists_processed [("a.jpg", Outcome.success 10)]
      [("c.jpg", Outcome.success 5)] "b.jpg" ⟨[], 0, 0⟩ (by decide) (by decide)⟩

end PhotoSorter
